import Mathlib

/-!
Shallow embedding of `TriblerGUI/widgets/triblertablecontrollers.py`:
the incremental query-result reconciliation controller
(`TriblerTableViewController` and its variants) together with the
free-text filter compiler (`to_fts_query` / `sanitize_for_fts`).

Python dictionaries with optional keys are embedded as structures of
`Option` fields; a falsy response (`None` or an empty dict) is the
`none` of an outer `Option`; a raised `KeyError` is the `error`
constructor of `Except`.  Randomness (`uuid.uuid4().hex`) is embedded
as an explicit `fresh` argument.  External GUI effects (signal
emissions, label updates) are returned as an explicit event list.
-/

set_option autoImplicit false

/-- Python truthiness of an optional string field such as
`self.query_uuid` (initialised to `None`): `None` and the empty string
are falsy, every other string is truthy. -/
def pyTruthyStr : Option String → Bool
  | none => false
  | some s => s != ""

/-- An item of the result collection (`model.data_items`); the
controller itself only ever reads its `infohash` field
(in `MyTorrentsTableViewController._on_row_edited`). -/
structure Item where
  infohash : String
deriving DecidableEq

/-- A truthy response dict as consumed by `on_query_results` and
`_on_row_update_results`; each optional key of the inbound JSON object
is an `Option` field. -/
structure Response where
  uuid? : Option String
  results? : Option (List Item)
  total? : Option Int
  dirty? : Option Bool
deriving DecidableEq

/-- GUI side effects performed by the response handlers, returned
explicitly: the `num_results_label.setText` update, the
`query_complete` signal emission, and the
`edit_channel_page.update_channel_commit_views()` call. -/
inductive GuiEvent where
  | setResultsLabel (n : Int)
  | queryComplete (response : Response) (remote : Bool)
  | updateChannelCommitViews
deriving DecidableEq

/-- The mutable state of a `TriblerTableViewController` together with
the fields of its model and of the view it reads: `query_uuid` (the
current epoch token, `None` at construction), the model's
`data_items`, `total_items`, `item_load_batch` and `hide_xxx`, the
controller's `query_text`, the view's sort indicator
(`_get_sort_parameters`), whether a `num_results_label` is attached,
the model's column list, and the `edit_channel_page.channel_dirty`
flag touched by the owned-editable variant. -/
structure ControllerState where
  query_uuid : Option String
  data_items : List Item
  total_items : Int
  query_text : String
  item_load_batch : Nat
  hide_xxx : Bool
  sort_by : String
  sort_asc : Bool
  has_results_label : Bool
  columns : List String
  channel_dirty : Bool
deriving DecidableEq

/-- `sanitize_for_fts`: `text.translate({ord('"'): '""', ord('\''): "''"})` —
a character-wise map that doubles every double-quote and every
single-quote character and leaves all other characters unchanged. -/
def sanitize_for_fts (text : String) : String :=
  String.mk (text.data.flatMap fun c =>
    if c = '"' then ['"', '"']
    else if c = '\'' then ['\'', '\''] else [c])

/-- Python's `text.split(" ")` for the one-character separator `" "`,
embedded as a character-level split: every occurrence of the space
character ends a word, and empty words are kept (so consecutive,
leading or trailing spaces produce empty words). -/
def splitAux : List Char → List (List Char)
  | [] => [[]]
  | c :: cs =>
    let ws := splitAux cs
    if c = ' ' then [] :: ws
    else
      match ws with
      | [] => [[c]]
      | w :: rest => (c :: w) :: rest

/-- `text.split(" ")` on strings. -/
def pySplitSpace (text : String) : List String :=
  (splitAux text.data).map String.mk

/-- `to_fts_query`: empty/falsy text compiles to the empty string;
otherwise the text is split on single spaces, each word is sanitized,
wrapped as `"word"*`, and the terms are joined with `" AND "`. -/
def to_fts_query (text : String) : String :=
  if text = "" then ""
  else
    " AND ".intercalate
      ((pySplitSpace text).map fun word => "\"" ++ sanitize_for_fts word ++ "\"*")

/-- The `first`/`last`/`query_filter` entries of the `**kwargs` passed
to `perform_query`  (`none` = key absent from the dict). Other stray
keys (such as the `start`/`end` passed by `_on_filter_input_change`)
do not influence the control flow of `perform_query` and are omitted. -/
structure QueryKwargs where
  first? : Option Int
  last? : Option Int
  query_filter? : Option String
deriving DecidableEq

/-- The url-params of the request dispatched by `perform_query` after
`kwargs.update({...})`. -/
structure DispatchedQuery where
  uuid? : Option String
  filter : String
  sort_by : String
  sort_asc : Bool
  hide_xxx : Bool
  first : Int
  last : Int
deriving DecidableEq

/-- Modelled from the spec: `model.reset` (the model lives outside
`src/`); per §4.2 a reset clears the result collection and the total
count. -/
def model_reset (s : ControllerState) : ControllerState :=
  { s with data_items := [], total_items := 0 }

/-- Modelled from the spec: `model.add_items` (ResultMerger, outside
`src/`); per §4.3 it appends the incoming items to the live collection
in arrival order and mutates nothing else. -/
def add_items (s : ControllerState) (items : List Item) : ControllerState :=
  { s with data_items := s.data_items ++ items }

/-- `TriblerTableViewController.perform_query`: if `first` or `last`
is missing from the kwargs, both are recomputed from the model's row
count and batch size; a new uuid (`fresh`) is minted when
`kwargs['first'] == 1 or not self.query_uuid`; the outgoing params add
`uuid`, `filter` (compiled from `query_filter` if given, else
`self.query_text`), the sort parameters and `hide_xxx`.  Returns the
updated controller state and the dispatched request. -/
def perform_query (s : ControllerState) (kw : QueryKwargs) (fresh : String) :
    ControllerState × DispatchedQuery :=
  let fl : Int × Int :=
    match kw.first?, kw.last? with
    | some f, some l => (f, l)
    | _, _ =>
        ((s.data_items.length : Int) + 1,
         (s.data_items.length : Int) + (s.item_load_batch : Int))
  let query_uuid' : Option String :=
    if fl.1 == 1 || !pyTruthyStr s.query_uuid then some fresh else s.query_uuid
  let flt := to_fts_query
    (match kw.query_filter? with
     | some q => q
     | none => s.query_text)
  ({ s with query_uuid := query_uuid' },
   { uuid? := query_uuid', filter := flt, sort_by := s.sort_by,
     sort_asc := s.sort_asc, hide_xxx := s.hide_xxx,
     first := fl.1, last := fl.2 })

/-- `TriblerTableViewController.is_new_result`: a response is stale
(`false`) when the controller's `query_uuid` is truthy, the response
dict has a `uuid` key, and the two differ; otherwise fresh (`true`). -/
def is_new_result (s : ControllerState) (response : Response) : Bool :=
  if pyTruthyStr s.query_uuid && response.uuid?.isSome
      && decide (response.uuid? ≠ s.query_uuid) then false
  else true

/-- `TriblerTableViewController.on_query_results`: a falsy response
returns `False` immediately; a fresh response has `response['results']`
added to the model; a non-remote response then overwrites
`model.total_items` with `response['total']` and updates the results
label if present; finally `query_complete` is emitted and `True`
returned.  A missing `results` key on a fresh response, or a missing
`total` key on a non-remote response, raises `KeyError`. -/
def on_query_results (s : ControllerState) (response : Option Response)
    (remote : Bool) : Except String (ControllerState × List GuiEvent × Bool) :=
  match response with
  | none => .ok (s, [], false)
  | some r =>
    let step1 : Except String ControllerState :=
      if is_new_result s r then
        match r.results? with
        | some items => .ok (add_items s items)
        | none => .error "KeyError: results"
      else .ok s
    match step1 with
    | .error e => .error e
    | .ok s1 =>
      if remote then
        .ok (s1, [GuiEvent.queryComplete r remote], true)
      else
        match r.total? with
        | none => .error "KeyError: total"
        | some t =>
          .ok ({ s1 with total_items := t },
               (if s.has_results_label then [GuiEvent.setResultsLabel t] else [])
                 ++ [GuiEvent.queryComplete r remote],
               true)

/-- `TriblerTableViewController._on_view_sort`: resets the model and
performs a query with `first=1, last=50`. -/
def _on_view_sort (s : ControllerState) (fresh : String) :
    ControllerState × DispatchedQuery :=
  perform_query (model_reset s) ⟨some 1, some 50, none⟩ fresh

/-- `FilterInputMixin._on_filter_input_change`: lowercases the filter
input into `query_text`, resets the model, and performs a query.  The
Python source passes `start=1, end=50` — not `first`/`last` — so
`perform_query` recomputes the window from the (freshly reset) model. -/
def _on_filter_input_change (s : ControllerState) (inputText fresh : String) :
    ControllerState × DispatchedQuery :=
  let s1 := { s with query_text := inputText.toLower }
  perform_query (model_reset s1) ⟨none, none, none⟩ fresh

/-- `TriblerTableViewController._on_list_scroll`: dispatches an
incremental query only when the scrollbar sits at its maximum and
`model.data_items` is non-empty (truthy); otherwise nothing happens. -/
def _on_list_scroll (s : ControllerState) (atBottom : Bool) (fresh : String) :
    ControllerState × Option DispatchedQuery :=
  if atBottom && !s.data_items.isEmpty then
    let r := perform_query s ⟨none, none, none⟩ fresh
    (r.1, some r.2)
  else (s, none)

/-- The single-item PATCH request issued by
`MyTorrentsTableViewController._on_row_edited`: endpoint
`mychannel/torrents/<infohash>`, method `PATCH`, and a one-entry data
dict `{attribute_name: new_value}`. -/
structure PatchRequest where
  endpoint : String
  method : String
  data : List (String × String)
deriving DecidableEq

/-- `MyTorrentsTableViewController._on_row_edited`: reads the edited
row's `infohash` and the edited column's name (renaming `category` to
`tags` and `name` to `title`), then issues a PATCH request carrying
only `{attribute_name: new_value}`.  Out-of-range indices (a Python
`IndexError`) give `none`. -/
def _on_row_edited (s : ControllerState) (row col : Nat) (new_value : String) :
    Option PatchRequest :=
  match s.data_items[row]?, s.columns[col]? with
  | some item, some colName =>
    let a1 := if colName == "category" then "tags" else colName
    let a2 := if a1 == "name" then "title" else a1
    some ⟨"mychannel/torrents/" ++ item.infohash, "PATCH", [(a2, new_value)]⟩
  | _, _ => none

/-- `MyTorrentsTableViewController._on_row_update_results`: a falsy
response does nothing; otherwise `channel_dirty` is set from
`response['dirty']` (raising `KeyError` if absent) and the commit
views are refreshed. -/
def _on_row_update_results (s : ControllerState) (response : Option Response) :
    Except String (ControllerState × List GuiEvent) :=
  match response with
  | none => .ok (s, [])
  | some r =>
    match r.dirty? with
    | some d =>
        .ok ({ s with channel_dirty := d }, [GuiEvent.updateChannelCommitViews])
    | none => .error "KeyError: dirty"

/-- The effective `first` page of a `perform_query` call: the `first`
kwarg when both window bounds are supplied, else `rowCount() + 1`. -/
def effFirst (s : ControllerState) (kw : QueryKwargs) : Int :=
  match kw.first?, kw.last? with
  | some f, some _ => f
  | _, _ => (s.data_items.length : Int) + 1

/-! ### Concrete states and responses used by counterexamples and witnesses -/

/-- A controller that has a current epoch token `E1` and two items. -/
def exState : ControllerState :=
  ⟨some "E1", [⟨"i1"⟩, ⟨"i2"⟩], 2, "", 50, false, "name", true, true,
   ["category", "name"], false⟩

/-- A non-empty response tagged with the superseded epoch `E0`. -/
def staleResp : Response := ⟨some "E0", some [⟨"i3"⟩], some 7, none⟩

/-- A freshly constructed controller: no epoch token, empty collection. -/
def freshState : ControllerState :=
  ⟨none, [], 0, "", 50, false, "name", true, false, [], false⟩

/-- A controller with one item but no epoch token. -/
def noEpochState : ControllerState :=
  ⟨none, [⟨"i1"⟩], 0, "", 50, false, "name", true, false, [], false⟩

/-- A response with no `uuid` key and no `total` key. -/
def noTotalResp : Response := ⟨none, some [⟨"i9"⟩], none, none⟩

/-! ### Helper lemmas -/

/-- The minted-or-kept `query_uuid` of `perform_query` is always `some`. -/
theorem mint_isSome (o : Option String) (b : Bool) (fresh : String) :
    (if b || !pyTruthyStr o then some fresh else o).isSome = true := by
  cases o with
  | none => simp [pyTruthyStr]
  | some s =>
    cases b with
    | false => by_cases he : s = "" <;> simp [pyTruthyStr, he]
    | true => simp

/-- A space-free character list is a single word for `splitAux`. -/
theorem splitAux_no_space (xs : List Char) (h : ' ' ∉ xs) : splitAux xs = [xs] := by
  induction xs with
  | nil => rfl
  | cons c cs ih =>
    have hc : ¬(c = ' ') := fun hceq => h (hceq ▸ List.mem_cons_self c cs)
    have hcs : ' ' ∉ cs := fun hm => h (List.mem_cons_of_mem c hm)
    simp [splitAux, hc, ih hcs]

/-- Each space character ends exactly one word of `splitAux`. -/
theorem splitAux_append_space (xs ys : List Char) (h : ' ' ∉ xs) :
    splitAux (xs ++ ' ' :: ys) = xs :: splitAux ys := by
  induction xs with
  | nil => simp [splitAux]
  | cons c cs ih =>
    have hc : ¬(c = ' ') := fun hceq => h (hceq ▸ List.mem_cons_self c cs)
    have hcs : ' ' ∉ cs := fun hm => h (List.mem_cons_of_mem c hm)
    simp [splitAux, hc, ih hcs]

/-! ### Claims -/

/-- C2: `is_new_result` classifies a response as stale exactly when the
controller has a truthy epoch token, the response carries a `uuid` key,
and the two tokens differ; a response with no `uuid` key is always
admitted. -/
theorem C2_admission_predicate (s : ControllerState) (r : Response) :
    (is_new_result s r = false ↔
      (pyTruthyStr s.query_uuid = true ∧ r.uuid?.isSome = true ∧
        r.uuid? ≠ s.query_uuid)) ∧
    (r.uuid? = none → is_new_result s r = true) := by
  constructor
  · unfold is_new_result
    split
    · next h =>
      simp only [Bool.and_eq_true, decide_eq_true_eq] at h
      simp [h.1.1, h.1.2, h.2]
    · next h =>
      simp only [Bool.and_eq_true, decide_eq_true_eq, not_and] at h
      constructor
      · intro hfalse; cases hfalse
      · rintro ⟨h1, h2, h3⟩; exact absurd h3 (h ⟨h1, h2⟩)
  · intro h; simp [is_new_result, h]

/-- C2 witness: a response carrying no `uuid` key is admitted. -/
theorem C2_witness : is_new_result freshState noTotalResp = true :=
  (C2_admission_predicate freshState noTotalResp).2 rfl

/-- C1 counterexample: with current epoch `E1`, the non-empty response
`staleResp` is tagged `E0` (stale), yet `on_query_results` with
`remote = false` still overwrites `total_items` (2 becomes 7), still
emits the label update and the `query_complete` signal, and returns
`true` — it is not discarded entirely. -/
theorem C1_counterexample :
    is_new_result exState staleResp = false ∧
    on_query_results exState (some staleResp) false =
      .ok ({ exState with total_items := 7 },
           [GuiEvent.setResultsLabel 7, GuiEvent.queryComplete staleResp false],
           true) ∧
    exState.total_items = 2 :=
  ⟨rfl, rfl, rfl⟩

/-- C1 (amended): a stale response is never merged into the collection
(`data_items` is left exactly as it was), but it is not discarded
entirely: a remote stale response still emits `query_complete` and
returns `true`; a local stale response additionally overwrites
`total_items` with `response['total']` (raising `KeyError` when that
key is absent) and updates the results label. -/
theorem C1_stale_response (s : ControllerState) (r : Response) (remote : Bool)
    (hstale : is_new_result s r = false) :
    (remote = true →
      on_query_results s (some r) remote =
        .ok (s, [GuiEvent.queryComplete r remote], true)) ∧
    (∀ t : Int, remote = false → r.total? = some t →
      on_query_results s (some r) remote =
        .ok ({ s with total_items := t },
             (if s.has_results_label then [GuiEvent.setResultsLabel t] else [])
               ++ [GuiEvent.queryComplete r remote], true)) ∧
    (remote = false → r.total? = none →
      on_query_results s (some r) remote = .error "KeyError: total") := by
  refine ⟨?_, ?_, ?_⟩
  · rintro rfl; simp [on_query_results, hstale]
  · rintro t rfl ht; simp [on_query_results, hstale, ht]
  · rintro rfl ht; simp [on_query_results, hstale, ht]

/-- C1 witness: the amended behaviour at the concrete stale response. -/
theorem C1_stale_response_witness :
    on_query_results exState (some staleResp) false =
      .ok ({ exState with total_items := 7 },
           [GuiEvent.setResultsLabel 7, GuiEvent.queryComplete staleResp false],
           true) :=
  (C1_stale_response exState staleResp false rfl).2.1 7 rfl rfl

/-- Auxiliary: a remote `on_query_results` run that returns normally
leaves `total_items` untouched. -/
theorem remote_total_aux (s : ControllerState) (response : Option Response)
    (out : ControllerState × List GuiEvent × Bool)
    (h : on_query_results s response true = .ok out) :
    out.1.total_items = s.total_items := by
  obtain ⟨o1, o2, o3⟩ := out
  cases response with
  | none =>
    simp only [on_query_results, Except.ok.injEq, Prod.mk.injEq] at h
    rw [← h.1]
  | some r =>
    by_cases hn : is_new_result s r
    · cases hr : r.results? with
      | none => simp [on_query_results, hn, hr] at h
      | some items =>
        simp only [on_query_results, hn, hr, if_true, Except.ok.injEq,
          Prod.mk.injEq] at h
        rw [← h.1]
        simp [add_items]
    · simp only [on_query_results, hn, Bool.false_eq_true, if_false, if_true,
        Except.ok.injEq, Prod.mk.injEq] at h
      rw [← h.1]

/-- C3: handling a remote response never writes `total_items`: whenever
`on_query_results` with `remote = true` returns normally, the resulting
`total_items` equals its value before the call. -/
theorem C3_remote_preserves_total (s : ControllerState) (response : Option Response)
    (out : ControllerState × List GuiEvent × Bool)
    (h : on_query_results s response true = .ok out) :
    out.1.total_items = s.total_items :=
  remote_total_aux s response out h

/-- C3 witness: an admitted remote response with one item leaves
`total_items` at its prior value `0`. -/
theorem C3_witness :
    ({ freshState with data_items := [⟨"i9"⟩] } : ControllerState).total_items
      = freshState.total_items :=
  C3_remote_preserves_total freshState (some noTotalResp)
    ({ freshState with data_items := [⟨"i9"⟩] },
     [GuiEvent.queryComplete noTotalResp true], true) rfl

/-- C4 counterexample: on a controller whose `query_uuid` is `None`, a
`perform_query` call with an explicit window `first = 2, last = 10`
(not the first page) still mints a fresh epoch token. -/
theorem C4_counterexample :
    (perform_query noEpochState ⟨some 2, some 10, none⟩ "FRESH").1.query_uuid
      = some "FRESH" ∧
    noEpochState.query_uuid = none ∧ ((2 : Int) == 1) = false :=
  ⟨rfl, rfl, rfl⟩

/-- C4 (amended): `perform_query` mints a fresh epoch token exactly when
the effective first page is `1` *or* the controller's current token is
falsy (`None` or empty) — so an incremental fetch on a controller that
already has a token keeps that token — and after any `perform_query`
the controller holds exactly one token. -/
theorem C4_epoch_minting (s : ControllerState) (kw : QueryKwargs) (fresh : String) :
    (perform_query s kw fresh).1.query_uuid =
      (if effFirst s kw == 1 || !pyTruthyStr s.query_uuid then some fresh
       else s.query_uuid) ∧
    ((perform_query s kw fresh).1.query_uuid).isSome = true := by
  obtain ⟨f?, l?, q?⟩ := kw
  constructor
  · unfold perform_query effFirst
    cases f? <;> cases l? <;> rfl
  · unfold perform_query
    cases f? <;> cases l? <;> exact mint_isSome _ _ _

/-- C5: the filter compiler maps empty input to the empty string; on
non-empty input it splits on every single space, doubles each embedded
double- and single-quote, wraps each word as a quoted prefix term and
joins the terms with `" AND "`; the word `a"b` compiles to `"a""b"*`. -/
theorem C5_filter_compiler :
    to_fts_query "" = "" ∧
    to_fts_query "a\"b" = "\"a\"\"b\"*" ∧
    (∀ text : String, text ≠ "" →
      to_fts_query text =
        " AND ".intercalate
          ((pySplitSpace text).map fun w => "\"" ++ sanitize_for_fts w ++ "\"*")) ∧
    (∀ xs : List Char, ' ' ∉ xs → splitAux xs = [xs]) ∧
    (∀ xs ys : List Char, ' ' ∉ xs →
      splitAux (xs ++ ' ' :: ys) = xs :: splitAux ys) ∧
    (∀ a b : String,
      sanitize_for_fts (a ++ b) = sanitize_for_fts a ++ sanitize_for_fts b) ∧
    sanitize_for_fts "\"" = "\"\"" ∧
    sanitize_for_fts "'" = "''" ∧
    (∀ c : Char, c ≠ '"' → c ≠ '\'' →
      sanitize_for_fts (String.mk [c]) = String.mk [c]) := by
  refine ⟨rfl, rfl, ?_, splitAux_no_space, splitAux_append_space, ?_, rfl, rfl, ?_⟩
  · intro text h; simp [to_fts_query, h]
  · intro a b
    show String.mk _ = String.mk _ ++ String.mk _
    rw [show (a ++ b).data = a.data ++ b.data from rfl, List.flatMap_append]
    rfl
  · intro c h1 h2
    simp [sanitize_for_fts, h1, h2]

/-- C5 witness: the compiler at the concrete inputs of the claim. -/
theorem C5_witness :
    to_fts_query "a\"b" = "\"a\"\"b\"*" ∧
    to_fts_query "hello world" =
      " AND ".intercalate
        ((pySplitSpace "hello world").map fun w => "\"" ++ sanitize_for_fts w ++ "\"*") ∧
    sanitize_for_fts (String.mk ['x']) = String.mk ['x'] :=
  ⟨C5_filter_compiler.2.1,
   C5_filter_compiler.2.2.1 "hello world" (by decide),
   C5_filter_compiler.2.2.2.2.2.2.2.2 'x' (by decide) (by decide)⟩

/-- C6 counterexample: an admitted, truthy, local (`remote = false`)
response that lacks the `total` key makes `on_query_results` raise
`KeyError` — absence of `total` is not treated as "no update" on the
local path. -/
theorem C6_counterexample :
    noTotalResp.total? = none ∧
    is_new_result freshState noTotalResp = true ∧
    on_query_results freshState (some noTotalResp) false =
      .error "KeyError: total" :=
  ⟨rfl, rfl, rfl⟩

/-- C6 (amended): a falsy response leaves all state unchanged and
returns `false`; an admitted *remote* response lacking `total` leaves
`total_items` unchanged; but a *local* response lacking `total` (one
that got past the merge step) raises `KeyError` instead of being
treated as "no update". -/
theorem C6_missing_total (s : ControllerState) (r : Response) :
    (∀ remote : Bool, on_query_results s none remote = .ok (s, [], false)) ∧
    (∀ out, on_query_results s (some r) true = .ok out →
      out.1.total_items = s.total_items) ∧
    (r.total? = none → (is_new_result s r = false ∨ r.results?.isSome = true) →
      on_query_results s (some r) false = .error "KeyError: total") := by
  refine ⟨fun remote => rfl, ?_, ?_⟩
  · intro out h
    exact remote_total_aux s (some r) out h
  · rintro ht (hstale | hres)
    · simp [on_query_results, hstale, ht]
    · obtain ⟨items, hi⟩ := Option.isSome_iff_exists.mp hres
      by_cases hn : is_new_result s r <;> simp [on_query_results, hn, hi, ht]

/-- C6 witness: the amended behaviour at concrete inputs. -/
theorem C6_witness :
    on_query_results freshState (some noTotalResp) false =
      .error "KeyError: total" :=
  (C6_missing_total freshState noTotalResp).2.2 rfl (Or.inr rfl)

/-- C7: both reset-and-query triggers — the sort-indicator change
(`_on_view_sort`) and the filter-text change
(`_on_filter_input_change`) — clear the result collection and dispatch
a query whose window starts at `first = 1`, whatever the prior state. -/
theorem C7_reset_and_query (s : ControllerState) (inputText fresh : String) :
    ((_on_view_sort s fresh).2.first = 1 ∧
     (_on_view_sort s fresh).1.data_items = []) ∧
    ((_on_filter_input_change s inputText fresh).2.first = 1 ∧
     (_on_filter_input_change s inputText fresh).1.data_items = []) :=
  ⟨⟨rfl, rfl⟩, ⟨rfl, rfl⟩⟩

/-- C8: a scroll-to-bottom on an empty collection is a no-op: no
request is dispatched and the state is returned unchanged. -/
theorem C8_scroll_empty_noop (s : ControllerState) (atBottom : Bool)
    (fresh : String) (h : s.data_items = []) :
    _on_list_scroll s atBottom fresh = (s, none) := by
  simp [_on_list_scroll, h]

/-- C8 witness: the no-op at a concrete empty controller. -/
theorem C8_witness : _on_list_scroll freshState true "F" = (freshState, none) :=
  C8_scroll_empty_noop freshState true "F" rfl

/-- C9: `_on_row_edited` is independent of the controller's epoch and
window state (`query_uuid`, `total_items`, `query_text`,
`item_load_batch`, `hide_xxx`, sort parameters); the request it issues
is a PATCH carrying a single field/value pair whose key is never the
epoch token (`uuid`) or a window bound (`first`/`last`); and
`_on_row_update_results` changes at most `channel_dirty`, leaving
`data_items`, `total_items` and `query_uuid` untouched. -/
theorem C9_patch_bypasses_pipeline (s : ControllerState) (row col : Nat)
    (new_value : String) :
    (∀ (u : Option String) (ti : Int) (qt : String) (b : Nat)
        (hx : Bool) (sb : String) (sa : Bool),
      _on_row_edited
          { s with query_uuid := u, total_items := ti, query_text := qt,
                   item_load_batch := b, hide_xxx := hx,
                   sort_by := sb, sort_asc := sa } row col new_value
        = _on_row_edited s row col new_value) ∧
    (∀ (req : PatchRequest) (cn : String),
      _on_row_edited s row col new_value = some req →
      s.columns[col]? = some cn →
      cn ≠ "uuid" → cn ≠ "first" → cn ≠ "last" →
      req.method = "PATCH" ∧
      ∃ a, req.data = [(a, new_value)] ∧
        a ≠ "uuid" ∧ a ≠ "first" ∧ a ≠ "last") ∧
    (∀ (response : Option Response) (out : ControllerState × List GuiEvent),
      _on_row_update_results s response = .ok out →
      out.1.data_items = s.data_items ∧ out.1.total_items = s.total_items ∧
        out.1.query_uuid = s.query_uuid) ∧
    (∀ (r : Response) (d : Bool), r.dirty? = some d →
      _on_row_update_results s (some r) =
        .ok ({ s with channel_dirty := d },
             [GuiEvent.updateChannelCommitViews])) := by
  refine ⟨?_, ?_, ?_, ?_⟩
  · intro u ti qt b hx sb sa
    rfl
  · intro req cn hreq hcn h1 h2 h3
    cases hrow : s.data_items[row]? with
    | none => simp [_on_row_edited, hrow] at hreq
    | some item =>
      rw [_on_row_edited, hrow, hcn] at hreq
      injection hreq with hreq
      subst hreq
      refine ⟨rfl, _, rfl, ?_⟩
      split
      · exact ⟨by decide, by decide, by decide⟩
      · split
        · exact ⟨by decide, by decide, by decide⟩
        · exact ⟨h1, h2, h3⟩
  · intro response out h
    cases response with
    | none =>
      simp only [_on_row_update_results, Except.ok.injEq] at h
      rw [← h]
      exact ⟨rfl, rfl, rfl⟩
    | some r =>
      cases hd : r.dirty? with
      | none => simp [_on_row_update_results, hd] at h
      | some d =>
        simp only [_on_row_update_results, hd, Except.ok.injEq] at h
        rw [← h]
        exact ⟨rfl, rfl, rfl⟩
  · intro r d hd
    simp [_on_row_update_results, hd]

/-- C9 witness: editing the `category` column of the first row issues a
PATCH of `{tags: "video"}` against `mychannel/torrents/i1`. -/
theorem C9_witness :
    (("PATCH" : String) = "PATCH" ∧
      ∃ a, ([("tags", "video")] : List (String × String)) = [(a, "video")] ∧
        a ≠ "uuid" ∧ a ≠ "first" ∧ a ≠ "last") :=
  (C9_patch_bypasses_pipeline exState 0 0 "video").2.1
    ⟨"mychannel/torrents/i1", "PATCH", [("tags", "video")]⟩ "category"
    rfl rfl (by decide) (by decide) (by decide)

/-- C10: a non-empty input with consecutive, leading or trailing spaces
yields an empty word for each extra space, and each empty word
contributes the degenerate term `""*` to the AND-joined output; in
particular `to_fts_query "a  b"` is exactly `"a"* AND ""* AND "b"*`. -/
theorem C10_degenerate_terms :
    to_fts_query "a  b" = "\"a\"* AND \"\"* AND \"b\"*" ∧
    ∀ text : String, text ≠ "" → "" ∈ pySplitSpace text →
      "\"\"*" ∈ (pySplitSpace text).map
          (fun w => "\"" ++ sanitize_for_fts w ++ "\"*") ∧
      to_fts_query text =
        " AND ".intercalate
          ((pySplitSpace text).map fun w => "\"" ++ sanitize_for_fts w ++ "\"*") := by
  refine ⟨rfl, ?_⟩
  intro text h hmem
  refine ⟨List.mem_map.mpr ⟨"", hmem, rfl⟩, by simp [to_fts_query, h]⟩

/-- C10 witness: the degenerate term at the concrete input `"a  b"`. -/
theorem C10_witness :
    "\"\"*" ∈ (pySplitSpace "a  b").map
        (fun w => "\"" ++ sanitize_for_fts w ++ "\"*") ∧
    to_fts_query "a  b" =
      " AND ".intercalate
        ((pySplitSpace "a  b").map fun w => "\"" ++ sanitize_for_fts w ++ "\"*") :=
  C10_degenerate_terms.2 "a  b" (by decide) (by decide)
